import Mathlib

/-!
Verification development for the PresentationGen repository (src/app.py).

The file shallowly embeds the slide-outline ingestion pipeline of `app.py`:
the token-budgeting loop `process_pdfs`, the prompt construction and JSON
response cleaning of `call_gemini_api_for_slides`, the deck assembly of
`create_enhanced_ppt`, the `create_default_template` helper, and the
"Generate Presentation" button handler.

External collaborators (pdfplumber, tiktoken, the Gemini API, python-pptx's
XML serialization) are modelled as parameters or abstract outcomes, exactly
at the call boundary the source uses:
  * per-file text extraction is an `Except String String` outcome carried by
    the uploaded-file record (pdfplumber is bytes-in/text-out);
  * the tokenizer is a parameter `count : String → Nat` (tiktoken is
    text-in/count-out);
  * the LLM is a parameter `llm : String → Except String String`
    (prompt-in/raw-text-out, may fail with a transport error).

Python's `json.loads` is embedded as an executable recursive-descent parser
over `List Char` producing the same accept/reject decisions and
position-formatted error messages as CPython's `json.decoder` on the JSON
fragment this program exercises (objects, arrays, strings with standard
escapes, integer literals; float/NaN/Infinity literals are kept as symbolic
lexemes, and the one-character `repr` detail inside the "Invalid control
character"/"Invalid \escape" messages is elided - neither is reachable in
any statement below).  Crucially, as in CPython, `str(JSONDecodeError)` is
"msg: line L column C (char P)" and never embeds the offending document.
-/

/-! ## Python string primitives (operating on `String.data`) -/

/-- Whitespace set stripped by Python's `str.strip()` (ASCII fragment;
the inputs of this program are ASCII). -/
def isPyWs (c : Char) : Bool :=
  c = ' ' || c = '\t' || c = '\n' || c = '\r' || c = '\x0b' || c = '\x0c'

/-- Python `str.strip()` on a character list. -/
def pyStripL (cs : List Char) : List Char :=
  ((cs.dropWhile isPyWs).reverse.dropWhile isPyWs).reverse

/-- Python `str.strip()`. -/
def pyStrip (s : String) : String :=
  ⟨pyStripL s.data⟩

/-- Python `str.startswith` on character lists. -/
def pyStartsWithL (cs pre : List Char) : Bool :=
  pre.isPrefixOf cs

/-- Python `str.endswith` on character lists. -/
def pyEndsWithL (cs post : List Char) : Bool :=
  post.isSuffixOf cs

/-- Worker for Python `str.split(sep)` with a non-empty separator:
leftmost non-overlapping occurrences split the string.  `fuel` at least the
length of `cs` guarantees the fallback arm is never reached, since every
step consumes at least one character. -/
def splitAux (sep : List Char) : Nat → List Char → List Char → List (List Char) → List (List Char)
  | _, [], cur, acc => acc ++ [cur]
  | 0, cs, cur, acc => acc ++ [cur ++ cs]
  | fuel + 1, c :: rest, cur, acc =>
    if sep.isPrefixOf (c :: rest) then
      splitAux sep fuel ((c :: rest).drop sep.length) [] (acc ++ [cur])
    else
      splitAux sep fuel rest (cur ++ [c]) acc

/-- Python `str.split(sep)` (non-empty `sep`) on character lists. -/
def pySplitL (sep cs : List Char) : List (List Char) :=
  splitAux sep cs.length cs [] []

/-- Substring membership (`needle in haystack` in Python), on lists. -/
def hasSub (need : List Char) : List Char → Bool
  | [] => need.isEmpty
  | c :: rest => need.isPrefixOf (c :: rest) || hasSub need rest

/-- Substring membership at `String` level. -/
def strContains (hay need : String) : Bool :=
  hasSub need.data hay.data

/-- Does the character list contain a run of three backticks?  Used to
characterise the inputs on which the code-fence stripper is lossless. -/
def hasTriple : List Char → Bool
  | [] => false
  | c :: rest => ['`', '`', '`'].isPrefixOf (c :: rest) || hasTriple rest

/-- Python's `f"{n:,}"` thousands-separator formatting for a natural
number (used by the `st.success` message of `process_pdfs`): after
reversing the digit string, commas are inserted every three digits. -/
def commaChunks : List Char → List Char
  | a :: b :: c :: d :: rest => a :: b :: c :: ',' :: commaChunks (d :: rest)
  | l => l

/-- Python `f"{n:,}"` for `n : Nat`. -/
def fmtComma (n : Nat) : String :=
  ⟨(commaChunks (toString n).data.reverse).reverse⟩

/-! ## Constants of `app.py` -/

/-- `MAX_TOKENS = 1900000` (app.py line 22). -/
def MAX_TOKENS : Nat := 1900000

/-- `TOKENS_PER_PAGE_ESTIMATE = 1500` (app.py line 23). -/
def TOKENS_PER_PAGE_ESTIMATE : Nat := 1500

/-- `MAX_PAGES_TOTAL = MAX_TOKENS // TOKENS_PER_PAGE_ESTIMATE` (app.py line 24). -/
def MAX_PAGES_TOTAL : Nat := MAX_TOKENS / TOKENS_PER_PAGE_ESTIMATE

/-! ## JSON values and the embedding of Python `json.loads` -/

/-- JSON values as produced by Python `json.loads` on this program's data.
Float/NaN/Infinity literals are kept as their source lexemes (IEEE
semantics is out of scope and unused by the program). -/
inductive Json where
  | null
  | bool (b : Bool)
  | intNum (n : Int)
  | floatNum (lexeme : String)
  | str (s : String)
  | arr (elems : List Json)
  | obj (members : List (String × Json))
deriving Repr

/-- Python `dict` insertion while decoding an object: an existing key keeps
its position and gets the new value, a new key is appended. -/
def insertKey : List (String × Json) → String → Json → List (String × Json)
  | [], k, v => [(k, v)]
  | (k', v') :: rest, k, v =>
    if k' = k then (k, v) :: rest else (k', v') :: insertKey rest k v

/-- JSON inter-token whitespace (CPython `json.decoder` skips exactly
space, tab, newline, carriage return). -/
def jsonWs (c : Char) : Bool :=
  c = ' ' || c = '\t' || c = '\n' || c = '\r'

/-- Skip JSON whitespace, tracking the absolute position. -/
def skipWs : List Char → Nat → List Char × Nat
  | [], pos => ([], pos)
  | c :: rest, pos => if jsonWs c then skipWs rest (pos + 1) else (c :: rest, pos)

/-- Value of a hex digit, if any. -/
def hexVal? (c : Char) : Option Nat :=
  if '0' ≤ c && c ≤ '9' then some (c.toNat - 48)
  else if 'a' ≤ c && c ≤ 'f' then some (c.toNat - 87)
  else if 'A' ≤ c && c ≤ 'F' then some (c.toNat - 55)
  else none

/-- Body of a JSON string after its opening quote (CPython `py_scanstring`).
`startPos` is the index of the opening quote, reported by the
"Unterminated string" error exactly as CPython does.  `fuel` at least the
length of the remaining input never runs out. -/
def parseStringBody : Nat → Nat → List Char → Nat → List Char → Except (String × Nat) (String × List Char × Nat)
  | 0, _, _, pos, _ => .error ("Fuel exhausted", pos)
  | _ + 1, startPos, [], _, _ => .error ("Unterminated string starting at", startPos)
  | fuel + 1, startPos, c :: rest, pos, acc =>
    if c = '"' then .ok (⟨acc.reverse⟩, rest, pos + 1)
    else if c = '\\' then
      match rest with
      | [] => .error ("Unterminated string starting at", startPos)
      | e :: r =>
        if e = '"' then parseStringBody fuel startPos r (pos + 2) ('"' :: acc)
        else if e = '\\' then parseStringBody fuel startPos r (pos + 2) ('\\' :: acc)
        else if e = '/' then parseStringBody fuel startPos r (pos + 2) ('/' :: acc)
        else if e = 'b' then parseStringBody fuel startPos r (pos + 2) ('\x08' :: acc)
        else if e = 'f' then parseStringBody fuel startPos r (pos + 2) ('\x0c' :: acc)
        else if e = 'n' then parseStringBody fuel startPos r (pos + 2) ('\n' :: acc)
        else if e = 'r' then parseStringBody fuel startPos r (pos + 2) ('\r' :: acc)
        else if e = 't' then parseStringBody fuel startPos r (pos + 2) ('\t' :: acc)
        else if e = 'u' then
          match r with
          | h1 :: h2 :: h3 :: h4 :: r4 =>
            match hexVal? h1, hexVal? h2, hexVal? h3, hexVal? h4 with
            | some n1, some n2, some n3, some n4 =>
              parseStringBody fuel startPos r4 (pos + 6)
                (Char.ofNat (((n1 * 16 + n2) * 16 + n3) * 16 + n4) :: acc)
            | _, _, _, _ => .error ("Invalid \\uXXXX escape", pos + 1)
          | _ => .error ("Invalid \\uXXXX escape", pos + 1)
        else .error ("Invalid \\escape", pos + 1)
    else if c.toNat < 32 then .error ("Invalid control character at", pos)
    else parseStringBody fuel startPos rest (pos + 1) (c :: acc)

/-- Numeric value of a digit string. -/
def digitsVal (ds : List Char) : Nat :=
  ds.foldl (fun a c => a * 10 + (c.toNat - 48)) 0

/-- JSON number literal, following CPython's
`(-?(?:0|[1-9]\d*))(\.\d+)?([eE][-+]?\d+)?` regex: the longest match is
consumed; a pure integer yields `Json.intNum`, otherwise the lexeme is kept
as a symbolic float. -/
def parseNumber (cs : List Char) (pos : Nat) : Except (String × Nat) (Json × List Char × Nat) :=
  let signLen : Nat := if cs.head? = some '-' then 1 else 0
  let cs1 := cs.drop signLen
  let intPart : List Char :=
    match cs1 with
    | '0' :: _ => ['0']
    | c :: _ => if c.isDigit then cs1.takeWhile Char.isDigit else []
    | [] => []
  if intPart.isEmpty then .error ("Expecting value", pos)
  else
    let rest1 := cs1.drop intPart.length
    let fracPart : List Char :=
      match rest1 with
      | '.' :: r =>
        let ds := r.takeWhile Char.isDigit
        if ds.isEmpty then [] else '.' :: ds
      | _ => []
    let rest2 := rest1.drop fracPart.length
    let expPart : List Char :=
      match rest2 with
      | e :: r =>
        if e = 'e' || e = 'E' then
          let sgn : List Char :=
            match r with
            | '+' :: _ => ['+']
            | '-' :: _ => ['-']
            | _ => []
          let ds := (r.drop sgn.length).takeWhile Char.isDigit
          if ds.isEmpty then [] else e :: (sgn ++ ds)
        else []
      | [] => []
    let lexLen := signLen + intPart.length + fracPart.length + expPart.length
    if fracPart.isEmpty && expPart.isEmpty then
      let n : Int := (digitsVal intPart : Int)
      .ok (.intNum (if signLen = 1 then -n else n), cs.drop lexLen, pos + lexLen)
    else
      .ok (.floatNum ⟨cs.take lexLen⟩, cs.drop lexLen, pos + lexLen)

/-- Parsing mode: a bare value, the items of an array after `[`, or the
members of an object positioned at the opening quote of the next key. -/
inductive PMode where
  | value
  | arrItems (acc : List Json)
  | objMembers (acc : List (String × Json))

/-- The recursive core of CPython's `json.decoder` scanner.  The input is
the remaining characters plus the absolute position; errors carry the
CPython message template and position.  `fuel` decreases on every
recursive call; every call either consumes a character first or alternates
value/loop modes, so `2 * length + 8` fuel (used below) never runs out. -/
def parseF : Nat → PMode → List Char → Nat → Except (String × Nat) (Json × List Char × Nat)
  | 0, _, _, pos => .error ("Fuel exhausted", pos)
  | fuel + 1, .value, cs, pos =>
    match cs with
    | [] => .error ("Expecting value", pos)
    | '"' :: rest =>
      match parseStringBody (rest.length + 1) pos rest (pos + 1) [] with
      | .error e => .error e
      | .ok (s, cs2, p2) => .ok (.str s, cs2, p2)
    | '{' :: rest =>
      let (cs1, p1) := skipWs rest (pos + 1)
      match cs1 with
      | '}' :: r => .ok (.obj [], r, p1 + 1)
      | '"' :: _ => parseF fuel (.objMembers []) cs1 p1
      | _ => .error ("Expecting property name enclosed in double quotes", p1)
    | '[' :: rest =>
      let (cs1, p1) := skipWs rest (pos + 1)
      match cs1 with
      | ']' :: r => .ok (.arr [], r, p1 + 1)
      | _ => parseF fuel (.arrItems []) cs1 p1
    | _ =>
      if cs.take 4 = "null".data then .ok (.null, cs.drop 4, pos + 4)
      else if cs.take 4 = "true".data then .ok (.bool true, cs.drop 4, pos + 4)
      else if cs.take 5 = "false".data then .ok (.bool false, cs.drop 5, pos + 5)
      else if cs.take 3 = "NaN".data then .ok (.floatNum "NaN", cs.drop 3, pos + 3)
      else if cs.take 8 = "Infinity".data then .ok (.floatNum "Infinity", cs.drop 8, pos + 8)
      else if cs.take 9 = "-Infinity".data then .ok (.floatNum "-Infinity", cs.drop 9, pos + 9)
      else parseNumber cs pos
  | fuel + 1, .arrItems acc, cs, pos =>
    match parseF fuel .value cs pos with
    | .error e => .error e
    | .ok (v, cs2, p2) =>
      let (cs3, p3) := skipWs cs2 p2
      match cs3 with
      | ']' :: r => .ok (.arr (acc ++ [v]), r, p3 + 1)
      | ',' :: r =>
        let (cs4, p4) := skipWs r (p3 + 1)
        parseF fuel (.arrItems (acc ++ [v])) cs4 p4
      | _ => .error ("Expecting \x27,\x27 delimiter", p3)
  | fuel + 1, .objMembers acc, cs, pos =>
    match cs with
    | '"' :: rest =>
      match parseStringBody (rest.length + 1) pos rest (pos + 1) [] with
      | .error e => .error e
      | .ok (k, cs2, p2) =>
        let (cs3, p3) := skipWs cs2 p2
        match cs3 with
        | ':' :: r3 =>
          let (cs4, p4) := skipWs r3 (p3 + 1)
          match parseF fuel .value cs4 p4 with
          | .error e => .error e
          | .ok (v, cs5, p5) =>
            let acc2 := insertKey acc k v
            let (cs6, p6) := skipWs cs5 p5
            match cs6 with
            | '}' :: r6 => .ok (.obj acc2, r6, p6 + 1)
            | ',' :: r6 =>
              let (cs7, p7) := skipWs r6 (p6 + 1)
              match cs7 with
              | '"' :: _ => parseF fuel (.objMembers acc2) cs7 p7
              | _ => .error ("Expecting property name enclosed in double quotes", p7)
            | _ => .error ("Expecting \x27,\x27 delimiter", p6)
        | _ => .error ("Expecting \x27:\x27 delimiter", p3)
    | _ => .error ("Expecting property name enclosed in double quotes", pos)

/-- Scanner entry: skip leading whitespace, parse one value, demand only
whitespace afterwards (CPython `json.loads` raising "Extra data"). -/
def json_loads_chars (doc : List Char) : Except (String × Nat) Json :=
  let (cs1, p1) := skipWs doc 0
  match parseF (2 * doc.length + 8) .value cs1 p1 with
  | .error e => .error e
  | .ok (v, cs2, p2) =>
    let (cs3, p3) := skipWs cs2 p2
    if cs3.isEmpty then .ok v else .error ("Extra data", p3)

/-- Line number of `pos` in `doc`, as CPython's `JSONDecodeError` computes it. -/
def jsonLineOf (doc : List Char) (pos : Nat) : Nat :=
  (doc.take pos).count '\n' + 1

/-- Column number of `pos` in `doc`, as CPython's `JSONDecodeError` computes it. -/
def jsonColOf (doc : List Char) (pos : Nat) : Nat :=
  match (doc.take pos).reverse.findIdx? (· = '\n') with
  | some k => k + 1
  | none => pos + 1

/-- The message of `str(JSONDecodeError)`: the template followed by
line/column/char - the offending document is never part of it. -/
def fmtJsonError (doc : List Char) (msg : String) (pos : Nat) : String :=
  msg ++ ": line " ++ toString (jsonLineOf doc pos) ++ " column " ++
    toString (jsonColOf doc pos) ++ " (char " ++ toString pos ++ ")"

/-- Python `json.loads` on a character list: a value, or the message of the
raised `JSONDecodeError`. -/
def json_loads (doc : List Char) : Except String Json :=
  match json_loads_chars doc with
  | .ok v => .ok v
  | .error (m, p) => .error (fmtJsonError doc m p)

/-! ## Response cleaning and parsing (`call_gemini_api_for_slides`, app.py 138-150) -/

/-- Code-fence cleaning of the raw LLM text (app.py lines 138-145):
strip, and when the text both starts and ends with three backticks take
`content.split("```")[1]`, drop a leading `"json\n"` line, and strip again.
The `[1]` index always exists because `startswith` guarantees at least one
separator occurrence. -/
def clean_response (raw : String) : List Char :=
  let content := pyStripL raw.data
  if pyStartsWithL content "```".data && pyEndsWithL content "```".data then
    let seg := (pySplitL "```".data content).getD 1 []
    let seg2 := if pyStartsWithL seg "json\n".data then seg.drop 5 else seg
    pyStripL seg2
  else content

/-- Parsing of the cleaned LLM text (app.py lines 147-150): `json.loads`
on the cleaned text; an exception is reported as
`st.error(f"API Error: {str(e)}")` and re-raised, so a failure carries
exactly that message. -/
def parse_llm_response (raw : String) : Except String Json :=
  match json_loads (clean_response raw) with
  | .ok v => .ok v
  | .error e => .error ("API Error: " ++ e)

/-! ## The Prompt Builder (app.py lines 104-133) -/

/-- The prompt f-string of `call_gemini_api_for_slides`, with
`{num_slides}`, `{topic}`, `{list(SLIDE_LAYOUTS.keys())}` and
`{TRANSITIONS}` interpolated exactly as Python renders them.  The
`source_text` and `selected_layout` parameters are received (mirroring the
Python signature) but never appear in the f-string - nothing else in the
function body uses them either. -/
def build_prompt (source_text topic : String) (num_slides : Nat) (selected_layout : String) : String :=
  "\nCreate a " ++ toString num_slides ++ "-slide presentation about \"" ++ topic ++
  "\".\n\nFor each slide, return a JSON object with:\n- title (string, short)\n- layout_type (one of [\x27Title Slide\x27, \x27Content\x27, \x27Two Content\x27, \x27Section Header\x27, \x27Comparison\x27])\n- content (an object depending on layout_type):\n  For \"Title Slide\": \x7b\"subtitle\": \"Your subtitle here\"\x7d\n  For \"Content\": \x7b\"bullets\": [\"bullet1\", \"bullet2\", ...]\x7d\n  For \"Two Content\": \x7b\"left\": [\"bullet1\",\"bullet2\"], \"right\":[\"bullet1\",\"bullet2\"]\x7d\n  For \"Section Header\": \x7b\"subtitle\": \"Your subtitle here\"\x7d\n  For \"Comparison\": \x7b\"comparison_points\": [\"point1\",\"point2\",...]\x7d\n- transition: one of [\x27None\x27, \x27Fade\x27, \x27Push\x27, \x27Wipe\x27, \x27Split\x27]\n\nMake sure the output is valid JSON. For example:\n\x7b\n  \"slides\": [\n    \x7b\n      \"title\": \"Introduction\",\n      \"layout_type\": \"Content\",\n      \"content\": \x7b\n        \"bullets\": [\"First point\", \"Second point\"]\n      \x7d,\n      \"transition\": \"None\"\n    \x7d\n  ]\n\x7d\n"

/-- The whole `call_gemini_api_for_slides` with the Gemini client as a
parameter: build the prompt, call the model, clean and parse the response.
Any failure (transport or JSON) surfaces as the `"API Error: ..."` message
of the `except` block. -/
def call_gemini_api_for_slides (llm : String → Except String String)
    (source_text topic : String) (num_slides : Nat) (selected_layout : String) :
    Except String Json :=
  match llm (build_prompt source_text topic num_slides selected_layout) with
  | .error e => .error ("API Error: " ++ e)
  | .ok txt => parse_llm_response txt

/-! ## The Token Budgeter (`process_pdfs`, app.py lines 78-102) -/

/-- A streamlit UI message emitted while processing (`st.info`,
`st.warning`, `st.success`, `st.error`). -/
inductive StMsg where
  | info (s : String)
  | warning (s : String)
  | success (s : String)
  | error (s : String)
deriving Repr, DecidableEq

/-- One uploaded file: its name and the outcome of
`extract_text_from_pdf(BytesIO(file.read()))` - extraction and reading are
delegated to pdfplumber, so the outcome (text or raised exception message)
is carried as data. -/
instance {e a : Type} [DecidableEq e] [DecidableEq a] : DecidableEq (Except e a) := fun x y =>
  match x, y with
  | .ok u, .ok v =>
    if h : u = v then .isTrue (by rw [h]) else .isFalse (fun hc => h (Except.ok.inj hc))
  | .error u, .error v =>
    if h : u = v then .isTrue (by rw [h]) else .isFalse (fun hc => h (Except.error.inj hc))
  | .ok _, .error _ => .isFalse (fun hc => Except.noConfusion hc)
  | .error _, .ok _ => .isFalse (fun hc => Except.noConfusion hc)

structure UploadedFile where
  name : String
  extract : Except String String
deriving Repr, DecidableEq

/-- The loop state of `process_pdfs`: the combined text buffer, the
running token total, the accepted-file list, and the emitted messages. -/
structure ProcState where
  combined_text : String
  total_tokens : Nat
  processed_files : List String
  msgs : List StMsg
deriving Repr, DecidableEq

/-- The state before the loop (`combined_text = ""`, `total_tokens = 0`,
`processed_files = []`). -/
def initState : ProcState := ⟨"", 0, [], []⟩

/-- One iteration of the `for file in uploaded_files` loop, with the
tokenizer (`count_tokens`, i.e. tiktoken) as the parameter `count`. -/
def processStep (count : String → Nat) (st : ProcState) (file : UploadedFile) : ProcState :=
  let st := { st with msgs := st.msgs ++ [StMsg.info ("Processing " ++ file.name ++ "...")] }
  match file.extract with
  | .error e =>
    { st with msgs := st.msgs ++ [StMsg.error ("Error processing " ++ file.name ++ ": " ++ e)] }
  | .ok text =>
    let tokens := count text
    if st.total_tokens + tokens > MAX_TOKENS then
      { st with msgs := st.msgs ++ [StMsg.warning ("Skipping " ++ file.name ++ " - would exceed token limit")] }
    else
      { combined_text := st.combined_text ++ "\n\nSource: " ++ file.name ++ "\n" ++ text
        total_tokens := st.total_tokens + tokens
        processed_files := st.processed_files ++ [file.name]
        msgs := st.msgs ++ [StMsg.success ("Processed " ++ file.name ++ ": " ++ fmtComma tokens ++ " tokens")] }

/-- `process_pdfs`: fold the per-file step over the uploads in order. -/
def process_pdfs (count : String → Nat) (files : List UploadedFile) : ProcState :=
  files.foldl (processStep count) initState

/-! ## The Deck Assembler (`create_enhanced_ppt`, app.py lines 152-266) -/

/-- A slide as observable through this program: the ordered paragraph
texts of each positional placeholder (a fresh placeholder holds one empty
paragraph; `tf.text = s` replaces them by `[s]`; `add_paragraph` appends),
plus the `transition` attribute the loop may set.  Fonts and colors, which
`apply_theme` also touches, have no bearing on any claim and are not
recorded. -/
structure SlideModel where
  placeholders : List (List String)
  transition : Option Json
deriving Repr

/-- A presentation template: its existing slides and the placeholder count
of each slide layout (standard templates put the title placeholder at
position 0 and body placeholders after it, matching how app.py indexes
`slide.placeholders[1]` / `[2]`). -/
structure TemplateModel where
  slides : List SlideModel
  layouts : List Nat
deriving Repr

/-- The theme dict assembled in the sidebar (app.py lines 277-283). -/
structure ThemeModel where
  color_scheme : String
  title_font : String
  body_font : String
  transition : String
  footer_text : String
deriving Repr, DecidableEq

/-- The placeholder counts of the layouts of the python-pptx default
template created by `Presentation()`; indices 0-4 (the only ones app.py
uses) are Title Slide, Title and Content, Section Header, Two Content,
Comparison. -/
def default_pptx_layout_counts : List Nat := [2, 2, 2, 3, 5, 1, 0, 3, 3, 2, 2]

/-- `SLIDE_LAYOUTS` of app.py lines 33-39: name, layout index, placeholder tags. -/
def SLIDE_LAYOUTS : List (String × Nat × List String) :=
  [("Title Slide", 0, ["title", "subtitle"]),
   ("Content", 1, ["title", "content"]),
   ("Two Content", 3, ["title", "left_content", "right_content"]),
   ("Section Header", 2, ["title", "subtitle"]),
   ("Comparison", 4, ["title", "table"])]

/-- `SLIDE_LAYOUTS[name]["id"]`. -/
def layoutId? (name : String) : Option Nat :=
  (SLIDE_LAYOUTS.find? (fun e => e.1 = name)).map (fun e => e.2.1)

/-- First-match association lookup in a decoded JSON object (decoded
objects have unique keys, see `insertKey`). -/
def lookupKey : List (String × Json) → String → Option Json
  | [], _ => none
  | (k, v) :: rest, key => if k = key then some v else lookupKey rest key

/-- Python `d[key]` on a decoded JSON value: `KeyError` when missing,
`TypeError` when the value is not an object. -/
def getItem (j : Json) (key : String) : Except String Json :=
  match j with
  | .obj fields =>
    match lookupKey fields key with
    | some v => .ok v
    | none => .error ("KeyError: " ++ key)
  | _ => .error "TypeError: value is not a dict"

/-- Python `d.get(key, dflt)` on a decoded JSON value. -/
def dictGet (j : Json) (key : String) (dflt : Json) : Except String Json :=
  match j with
  | .obj fields =>
    match lookupKey fields key with
    | some v => .ok v
    | none => .ok dflt
  | _ => .error "AttributeError: value has no attribute get"

/-- Assigning a decoded JSON value to a python-pptx text attribute
requires a `str`. -/
def expectStr : Json → Except String String
  | .str s => .ok s
  | _ => .error "TypeError: text must be a str"

/-- Iterating a decoded JSON value as a bullet list and assigning each
item to `p.text`: the value must be an array of strings (iterating a
non-list iterable such as a str or dict is outside the model's scope;
no statement below exercises it). -/
def expectStrList : Json → Except String (List String)
  | .arr items => items.mapM expectStr
  | _ => .error "TypeError: value is not iterable"

/-- `apply_theme` (app.py lines 152-182) as observable here: the
`THEME_COLORS[theme["color_scheme"]]` lookup raises on an unknown scheme;
font and color assignments change nothing recorded by `SlideModel`; a
non-empty footer reaches `slide.height`, which python-pptx `Slide` objects
do not have, so it raises `AttributeError`. -/
def apply_theme (slide : SlideModel) (theme : ThemeModel) : Except String SlideModel :=
  if ["Light", "Dark"].contains theme.color_scheme then
    if theme.footer_text ≠ "" then
      .error "AttributeError: \x27Slide\x27 object has no attribute \x27height\x27"
    else
      .ok slide
  else
    .error ("KeyError: " ++ theme.color_scheme)

/-- The body of the `for slide_info in slides_data["slides"]` loop of
`create_enhanced_ppt` (app.py lines 187-261): add a slide from the layout
named by `layout_type`, set the title, fill the layout-specific
placeholders using `.get` defaults, apply the theme, set the transition
attribute unless the record says `"None"`. -/
def buildSlide (layouts : List Nat) (theme : ThemeModel) (slide_info : Json) :
    Except String SlideModel := do
  let ltJ ← getItem slide_info "layout_type"
  let lt ←
    match ltJ with
    | .str s => Except.ok s
    | _ => Except.error "TypeError: unhashable layout_type"
  let layout_idx ←
    match layoutId? lt with
    | some i => Except.ok i
    | none => Except.error ("KeyError: " ++ lt)
  let phCount ←
    match layouts.get? layout_idx with
    | some n => Except.ok n
    | none => Except.error "IndexError: slide layout index out of range"
  let phs0 : List (List String) := List.replicate phCount [""]
  let phs1 ←
    if 0 < phCount then do
      let tJ ← getItem slide_info "title"
      let t ← expectStr tJ
      pure (phs0.set 0 [t])
    else
      pure phs0
  let phs2 ←
    if lt = "Title Slide" then
      if 1 < phCount then do
        let content ← getItem slide_info "content"
        let subJ ← dictGet content "subtitle" (.str "")
        let sub ← expectStr subJ
        pure (phs1.set 1 [sub])
      else pure phs1
    else if lt = "Content" then
      if 1 < phCount then do
        let content ← getItem slide_info "content"
        let bsJ ← dictGet content "bullets" (.arr [])
        let bs ← expectStrList bsJ
        pure (phs1.set 1 ("" :: bs))
      else pure phs1
    else if lt = "Two Content" then
      if 2 < phCount then do
        let content ← getItem slide_info "content"
        let lJ ← dictGet content "left" (.arr [])
        let rJ ← dictGet content "right" (.arr [])
        let ls ← expectStrList lJ
        let rs ← expectStrList rJ
        pure ((phs1.set 1 ("" :: ls)).set 2 ("" :: rs))
      else pure phs1
    else if lt = "Section Header" then
      if 1 < phCount then do
        let content ← getItem slide_info "content"
        let subJ ← dictGet content "subtitle" (.str "")
        let sub ← expectStr subJ
        pure (phs1.set 1 [sub])
      else pure phs1
    else if lt = "Comparison" then
      if 1 < phCount then do
        let content ← getItem slide_info "content"
        let psJ ← dictGet content "comparison_points" (.arr [])
        let ps ← expectStrList psJ
        pure (phs1.set 1 ("" :: ps))
      else pure phs1
    else
      pure phs1
  let slide1 : SlideModel := { placeholders := phs2, transition := none }
  let slide2 ← apply_theme slide1 theme
  let tOpt : Option Json :=
    match slide_info with
    | .obj fs => lookupKey fs "transition"
    | _ => none
  match tOpt with
  | some (.str "None") => pure slide2
  | some v => pure { slide2 with transition := some v }
  | none => Except.error "KeyError: transition"

/-- `create_enhanced_ppt` (app.py lines 184-266): open the template,
append one slide per record of `slides_data["slides"]`, and return the
final slide sequence (`prs.save` serialization is byte-level and out of
scope).  The `num_slides` parameter is received - mirroring the Python
signature - and never used. -/
def create_enhanced_ppt (slides_data : Json) (template_ppt : TemplateModel)
    (theme : ThemeModel) (num_slides : Nat) : Except String (List SlideModel) := do
  let slJ ← getItem slides_data "slides"
  let records ←
    match slJ with
    | .arr rs => Except.ok rs
    | _ => Except.error "TypeError: slides is not iterable"
  let newSlides ← records.mapM (buildSlide template_ppt.layouts theme)
  pure (template_ppt.slides ++ newSlides)

/-! ## Default template and the button handler (app.py lines 14-19, 296-328) -/

/-- The template produced by `Presentation()` + `prs.save`: no slides, the
default layout set. -/
def defaultTemplate : TemplateModel :=
  { slides := [], layouts := default_pptx_layout_counts }

/-- `create_default_template` acting on the working directory's
`template.pptx` entry (`none` = absent): create a blank default only when
the file does not exist. -/
def create_default_template (fs : Option TemplateModel) : Option TemplateModel :=
  match fs with
  | some t => some t
  | none => some defaultTemplate

/-- An observable step of the "Generate Presentation" click handler. -/
inductive GenAction where
  | errorMsg (s : String)
  | warningMsg (s : String)
  | llmCall (prompt : String)
  | deckBuilt (deck : List SlideModel)
  | successMsg (s : String)
  | downloadOffered
  | raised (s : String)
deriving Repr

/-- The `st.button("Generate Presentation")` branch (app.py lines
299-328), as the sequence of observable actions: guard on topic and files,
run `process_pdfs`, stop with a warning when nothing was processed,
otherwise call the API, parse, and assemble with the resolved template.
API and parse failures are reported and re-raised; assembly failures
propagate as uncaught exceptions. -/
def generate_click (count : String → Nat) (llm : String → Except String String)
    (template : TemplateModel) (theme : ThemeModel) (topic : String)
    (files : List UploadedFile) (num_slides : Nat) (selected_layout : String) :
    List GenAction :=
  if pyStrip topic = "" then
    [.errorMsg "Please enter a topic."]
  else if files.isEmpty then
    [.errorMsg "Please upload at least one PDF."]
  else
    let st := process_pdfs count files
    if st.processed_files.isEmpty then
      [.warningMsg "No files processed. Please check your input."]
    else
      let prompt := build_prompt st.combined_text topic num_slides selected_layout
      .llmCall prompt ::
      match llm prompt with
      | .error e => [.errorMsg ("API Error: " ++ e), .raised ("API Error: " ++ e)]
      | .ok txt =>
        match parse_llm_response txt with
        | .error m => [.errorMsg m, .raised m]
        | .ok slides_data =>
          match create_enhanced_ppt slides_data template theme num_slides with
          | .error m => [.raised m]
          | .ok deck =>
            [.deckBuilt deck, .successMsg "Presentation generated successfully!", .downloadOffered]

/-! ## Derived notions used by the statements below -/

/-- The name/text pair of a file whose extraction succeeds. -/
def okPair (f : UploadedFile) : Option (String × String) :=
  match f.extract with
  | .ok t => some (f.name, t)
  | .error _ => none

/-- The combined-buffer contribution of a list of accepted (name, text)
pairs, exactly as `process_pdfs` appends them. -/
def joinEntries : List (String × String) → String
  | [] => ""
  | (n, t) :: rest => "\n\nSource: " ++ n ++ "\n" ++ t ++ joinEntries rest

/-- Total token estimate of a list of files (errored files contribute 0;
they never reach the counter in the code). -/
def tokSumF (count : String → Nat) (files : List UploadedFile) : Nat :=
  (files.map (fun f => match f.extract with | .ok t => count t | .error _ => 0)).sum

/-- Token total of accepted (name, text) pairs. -/
def tokSumP (count : String → Nat) (kept : List (String × String)) : Nat :=
  (kept.map (fun p => count p.2)).sum

/-! ## Lemmas about `process_pdfs` -/

/-- One step never pushes the running total above the ceiling. -/
theorem processStep_total_le (count : String → Nat) (st : ProcState) (f : UploadedFile)
    (h : st.total_tokens ≤ MAX_TOKENS) :
    (processStep count st f).total_tokens ≤ MAX_TOKENS := by
  unfold processStep
  cases f.extract with
  | error e => simpa using h
  | ok t =>
    simp only []
    split
    · simpa using h
    · simp only []
      omega

/-- The fold never pushes the running total above the ceiling. -/
theorem foldl_total_le (count : String → Nat) :
    ∀ (files : List UploadedFile) (st : ProcState), st.total_tokens ≤ MAX_TOKENS →
      (List.foldl (processStep count) st files).total_tokens ≤ MAX_TOKENS := by
  intro files
  induction files with
  | nil => intro st h; simpa using h
  | cons f fs ih =>
    intro st h
    simpa using ih (processStep count st f) (processStep_total_le count st f h)

/-- One step only appends to the message log. -/
theorem processStep_msgs (count : String → Nat) (st : ProcState) (f : UploadedFile) :
    ∃ m, (processStep count st f).msgs = st.msgs ++ m := by
  unfold processStep
  cases f.extract with
  | error e =>
    exact ⟨[StMsg.info ("Processing " ++ f.name ++ "..."),
            StMsg.error ("Error processing " ++ f.name ++ ": " ++ e)], by simp⟩
  | ok t =>
    simp only []
    split
    · exact ⟨[StMsg.info ("Processing " ++ f.name ++ "..."),
              StMsg.warning ("Skipping " ++ f.name ++ " - would exceed token limit")], by simp⟩
    · exact ⟨[StMsg.info ("Processing " ++ f.name ++ "..."),
              StMsg.success ("Processed " ++ f.name ++ ": " ++ fmtComma (count t) ++ " tokens")],
        by simp⟩

/-- The fold only appends to the message log. -/
theorem foldl_msgs (count : String → Nat) :
    ∀ (files : List UploadedFile) (st : ProcState),
      ∃ m, (List.foldl (processStep count) st files).msgs = st.msgs ++ m := by
  intro files
  induction files with
  | nil => intro st; exact ⟨[], by simp⟩
  | cons f fs ih =>
    intro st
    obtain ⟨m₁, h₁⟩ := processStep_msgs count st f
    obtain ⟨m₂, h₂⟩ := ih (processStep count st f)
    exact ⟨m₁ ++ m₂, by simp [h₂, h₁]⟩

/-- The non-message fields produced by one step depend only on the
non-message fields of the incoming state. -/
theorem processStep_msgs_irrel (count : String → Nat) (st₁ st₂ : ProcState) (f : UploadedFile)
    (hc : st₁.combined_text = st₂.combined_text) (ht : st₁.total_tokens = st₂.total_tokens)
    (hp : st₁.processed_files = st₂.processed_files) :
    (processStep count st₁ f).combined_text = (processStep count st₂ f).combined_text ∧
    (processStep count st₁ f).total_tokens = (processStep count st₂ f).total_tokens ∧
    (processStep count st₁ f).processed_files = (processStep count st₂ f).processed_files := by
  unfold processStep
  cases f.extract with
  | error e => exact ⟨by simpa using hc, by simpa using ht, by simpa using hp⟩
  | ok t =>
    simp only []
    rw [ht]
    split
    · exact ⟨by simpa using hc, by simpa using ht, by simpa using hp⟩
    · exact ⟨by simp [hc], by simp [ht], by simp [hp]⟩

/-- The non-message fields of the fold depend only on the non-message
fields of the initial state. -/
theorem foldl_msgs_irrel (count : String → Nat) :
    ∀ (files : List UploadedFile) (st₁ st₂ : ProcState),
      st₁.combined_text = st₂.combined_text → st₁.total_tokens = st₂.total_tokens →
      st₁.processed_files = st₂.processed_files →
      (List.foldl (processStep count) st₁ files).combined_text =
        (List.foldl (processStep count) st₂ files).combined_text ∧
      (List.foldl (processStep count) st₁ files).total_tokens =
        (List.foldl (processStep count) st₂ files).total_tokens ∧
      (List.foldl (processStep count) st₁ files).processed_files =
        (List.foldl (processStep count) st₂ files).processed_files := by
  intro files
  induction files with
  | nil => intro st₁ st₂ hc ht hp; exact ⟨hc, ht, hp⟩
  | cons f fs ih =>
    intro st₁ st₂ hc ht hp
    obtain ⟨hc', ht', hp'⟩ := processStep_msgs_irrel count st₁ st₂ f hc ht hp
    simpa using ih (processStep count st₁ f) (processStep count st₂ f) hc' ht' hp'

/-- Fold characterisation: some order-preserving selection `kept` of the
successfully extracted files is accepted; the combined buffer, total and
accepted list are exactly its untruncated contributions. -/
theorem foldl_core (count : String → Nat) :
    ∀ (files : List UploadedFile) (st : ProcState),
      ∃ kept : List (String × String),
        kept.Sublist (files.filterMap okPair) ∧
        (List.foldl (processStep count) st files).combined_text =
          st.combined_text ++ joinEntries kept ∧
        (List.foldl (processStep count) st files).total_tokens =
          st.total_tokens + tokSumP count kept ∧
        (List.foldl (processStep count) st files).processed_files =
          st.processed_files ++ kept.map Prod.fst := by
  intro files
  induction files with
  | nil =>
    intro st
    exact ⟨[], by simp [okPair, joinEntries, tokSumP]⟩
  | cons f fs ih =>
    intro st
    obtain ⟨kept, hsub, hc, ht, hp⟩ := ih (processStep count st f)
    by_cases hext : ∃ t, f.extract = Except.ok t
    · obtain ⟨t, hok⟩ := hext
      by_cases hov : st.total_tokens + count t > MAX_TOKENS
      · refine ⟨kept, ?_, ?_, ?_, ?_⟩
        · have : (f :: fs).filterMap okPair = (f.name, t) :: fs.filterMap okPair := by
            simp [okPair, hok]
          rw [this]
          exact hsub.cons _
        · rw [List.foldl_cons] at *
          rw [hc]
          unfold processStep
          rw [hok]
          simp [hov]
        · rw [List.foldl_cons] at *
          rw [ht]
          unfold processStep
          rw [hok]
          simp [hov]
        · rw [List.foldl_cons] at *
          rw [hp]
          unfold processStep
          rw [hok]
          simp [hov]
      · refine ⟨(f.name, t) :: kept, ?_, ?_, ?_, ?_⟩
        · have : (f :: fs).filterMap okPair = (f.name, t) :: fs.filterMap okPair := by
            simp [okPair, hok]
          rw [this]
          exact hsub.cons₂ _
        · rw [List.foldl_cons] at *
          rw [hc]
          unfold processStep
          rw [hok]
          simp [hov, joinEntries, String.append_assoc]
        · rw [List.foldl_cons] at *
          rw [ht]
          unfold processStep
          rw [hok]
          simp [hov, tokSumP]
          omega
        · rw [List.foldl_cons] at *
          rw [hp]
          unfold processStep
          rw [hok]
          simp [hov]
    · have hok : ∃ e, f.extract = Except.error e := by
        cases hfe : f.extract with
        | ok t => exact absurd ⟨t, hfe⟩ hext
        | error e => exact ⟨e, rfl⟩
      obtain ⟨e, hok⟩ := hok
      refine ⟨kept, ?_, ?_, ?_, ?_⟩
      · have : (f :: fs).filterMap okPair = fs.filterMap okPair := by
          simp [okPair, hok]
        rw [this]
        exact hsub
      · rw [List.foldl_cons] at *
        rw [hc]
        unfold processStep
        rw [hok]
      · rw [List.foldl_cons] at *
        rw [ht]
        unfold processStep
        rw [hok]
      · rw [List.foldl_cons] at *
        rw [hp]
        unfold processStep
        rw [hok]

/-- A file whose extraction fails changes nothing but the message log. -/
theorem processStep_error (count : String → Nat) (st : ProcState) (f : UploadedFile)
    (e : String) (he : f.extract = Except.error e) :
    processStep count st f =
      { st with msgs := st.msgs ++
          [StMsg.info ("Processing " ++ f.name ++ "..."),
           StMsg.error ("Error processing " ++ f.name ++ ": " ++ e)] } := by
  unfold processStep
  rw [he]
  cases st
  simp

/-- A file that would overflow the ceiling changes nothing but the message
log, which gains the skip warning. -/
theorem processStep_skip (count : String → Nat) (st : ProcState) (f : UploadedFile)
    (t : String) (ht : f.extract = Except.ok t)
    (hov : st.total_tokens + count t > MAX_TOKENS) :
    processStep count st f =
      { st with msgs := st.msgs ++
          [StMsg.info ("Processing " ++ f.name ++ "..."),
           StMsg.warning ("Skipping " ++ f.name ++ " - would exceed token limit")] } := by
  unfold processStep
  rw [ht]
  cases st
  simp only [] at hov ⊢
  simp [hov]

/-- A file that fits is accepted: full text appended, total increased,
name recorded. -/
theorem processStep_accept (count : String → Nat) (st : ProcState) (f : UploadedFile)
    (t : String) (ht : f.extract = Except.ok t)
    (hov : ¬ st.total_tokens + count t > MAX_TOKENS) :
    processStep count st f =
      { combined_text := st.combined_text ++ "\n\nSource: " ++ f.name ++ "\n" ++ t
        total_tokens := st.total_tokens + count t
        processed_files := st.processed_files ++ [f.name]
        msgs := st.msgs ++
          [StMsg.info ("Processing " ++ f.name ++ "..."),
           StMsg.success ("Processed " ++ f.name ++ ": " ++ fmtComma (count t) ++ " tokens")] } := by
  unfold processStep
  rw [ht]
  cases st
  simp only [] at hov ⊢
  simp [hov, String.append_assoc]

/-- When every file extracts and every stepwise prefix sum fits, every
file is accepted, in order. -/
theorem foldl_accept (count : String → Nat) :
    ∀ (files : List UploadedFile) (st : ProcState),
      (∀ f ∈ files, f.extract.isOk = true) →
      (∀ i, i < files.length → st.total_tokens + tokSumF count (files.take (i + 1)) ≤ MAX_TOKENS) →
      (List.foldl (processStep count) st files).processed_files =
        st.processed_files ++ files.map (fun f => f.name) ∧
      (List.foldl (processStep count) st files).total_tokens =
        st.total_tokens + tokSumF count files := by
  intro files
  induction files with
  | nil => intro st _ _; simp [tokSumF]
  | cons f fs ih =>
    intro st hok hfit
    obtain ⟨t, ht⟩ : ∃ t, f.extract = Except.ok t := by
      have hf := hok f (by simp)
      cases hfe : f.extract with
      | ok t => exact ⟨t, rfl⟩
      | error e => rw [hfe] at hf; simp [Except.isOk, Except.toBool] at hf
    have htok : tokSumF count (f :: fs) = count t + tokSumF count fs := by
      simp [tokSumF, ht]
    have hfit0 : st.total_tokens + count t ≤ MAX_TOKENS := by
      have h0 := hfit 0 (by simp)
      simp [tokSumF, ht] at h0
      omega
    have hov : ¬ st.total_tokens + count t > MAX_TOKENS := by omega
    have hstep := processStep_accept count st f t ht hov
    have htot' : (processStep count st f).total_tokens = st.total_tokens + count t := by
      rw [hstep]
    have hp' : (processStep count st f).processed_files = st.processed_files ++ [f.name] := by
      rw [hstep]
    have hfit' : ∀ i, i < fs.length →
        (processStep count st f).total_tokens + tokSumF count (fs.take (i + 1)) ≤ MAX_TOKENS := by
      intro i hi
      rw [htot']
      have hstep2 := hfit (i + 1) (by simpa using hi)
      have htake : (f :: fs).take (i + 1 + 1) = f :: fs.take (i + 1) := by simp
      rw [htake] at hstep2
      have hts : tokSumF count (f :: fs.take (i + 1)) =
          count t + tokSumF count (fs.take (i + 1)) := by
        simp [tokSumF, ht]
      rw [hts] at hstep2
      omega
    obtain ⟨hp, htotF⟩ := ih (processStep count st f) (fun g hg => hok g (by simp [hg])) hfit'
    rw [List.foldl_cons]
    constructor
    · rw [hp, hp']
      simp
    · rw [htotF, htot', htok]
      omega

/-- C5: for every sequence of uploaded documents (and every tokenizer),
the Token Budgeter's running total never exceeds the ceiling `MAX_TOKENS`
at any point during processing (each prefix of the upload list leaves the
total within the ceiling) nor in the final result; and the result is an
order-preserving selection of the successfully extracted documents -
`processed_files` lists the accepted names in upload order (a sublist of
the uploads, so no reordering) and `combined_text` is exactly the
concatenation of each accepted document's full text with its
`"Source: <filename>"` marker (no partial truncation). -/
theorem c5_budget_invariant (count : String → Nat) (files : List UploadedFile) :
    (∀ i : Nat, (process_pdfs count (files.take i)).total_tokens ≤ MAX_TOKENS) ∧
    ∃ kept : List (String × String),
      kept.Sublist (files.filterMap okPair) ∧
      (process_pdfs count files).processed_files = kept.map Prod.fst ∧
      (process_pdfs count files).combined_text = joinEntries kept ∧
      (process_pdfs count files).total_tokens = tokSumP count kept := by
  constructor
  · intro i
    exact foldl_total_le count (files.take i) initState (by simp [initState, MAX_TOKENS])
  · obtain ⟨kept, hsub, hc, ht, hp⟩ := foldl_core count files initState
    refine ⟨kept, hsub, ?_, ?_, ?_⟩
    · simpa [process_pdfs, initState] using hp
    · have := hc
      simp only [process_pdfs, initState] at this ⊢
      rw [this, String.empty_append]
    · simpa [process_pdfs, initState] using ht

/-- C8: an uploaded file whose extraction raises leaves the accumulated
state (combined buffer, running total, accepted list) exactly as it was,
the error is reported via `st.error`, and the batch continues - the final
state of the run equals the state of the run without the failing file. -/
theorem c8_extraction_error_isolated (count : String → Nat)
    (pre post : List UploadedFile) (nm e : String) :
    ((process_pdfs count (pre ++ ⟨nm, Except.error e⟩ :: post)).combined_text =
        (process_pdfs count (pre ++ post)).combined_text ∧
      (process_pdfs count (pre ++ ⟨nm, Except.error e⟩ :: post)).total_tokens =
        (process_pdfs count (pre ++ post)).total_tokens ∧
      (process_pdfs count (pre ++ ⟨nm, Except.error e⟩ :: post)).processed_files =
        (process_pdfs count (pre ++ post)).processed_files) ∧
    StMsg.error ("Error processing " ++ nm ++ ": " ++ e) ∈
      (process_pdfs count (pre ++ ⟨nm, Except.error e⟩ :: post)).msgs ∧
    ((process_pdfs count (pre ++ [⟨nm, Except.error e⟩])).combined_text =
        (process_pdfs count pre).combined_text ∧
      (process_pdfs count (pre ++ [⟨nm, Except.error e⟩])).total_tokens =
        (process_pdfs count pre).total_tokens ∧
      (process_pdfs count (pre ++ [⟨nm, Except.error e⟩])).processed_files =
        (process_pdfs count pre).processed_files) := by
  have hbad : (⟨nm, Except.error e⟩ : UploadedFile).extract = Except.error e := rfl
  have hstep := processStep_error count (List.foldl (processStep count) initState pre)
    ⟨nm, Except.error e⟩ e hbad
  constructor
  · have h1 : process_pdfs count (pre ++ ⟨nm, Except.error e⟩ :: post) =
        List.foldl (processStep count)
          (processStep count (List.foldl (processStep count) initState pre)
            ⟨nm, Except.error e⟩) post := by
      simp [process_pdfs, List.foldl_append]
    have h2 : process_pdfs count (pre ++ post) =
        List.foldl (processStep count) (List.foldl (processStep count) initState pre) post := by
      simp [process_pdfs, List.foldl_append]
    rw [h1, h2]
    exact foldl_msgs_irrel count post _ _ (by rw [hstep]) (by rw [hstep]) (by rw [hstep])
  constructor
  · have h1 : process_pdfs count (pre ++ ⟨nm, Except.error e⟩ :: post) =
        List.foldl (processStep count)
          (processStep count (List.foldl (processStep count) initState pre)
            ⟨nm, Except.error e⟩) post := by
      simp [process_pdfs, List.foldl_append]
    rw [h1]
    obtain ⟨m, hm⟩ := foldl_msgs count post
      (processStep count (List.foldl (processStep count) initState pre) ⟨nm, Except.error e⟩)
    rw [hm, hstep]
    simp
  · have h3 : process_pdfs count (pre ++ [⟨nm, Except.error e⟩]) =
        processStep count (List.foldl (processStep count) initState pre)
          ⟨nm, Except.error e⟩ := by
      simp [process_pdfs, List.foldl_append]
    rw [h3, hstep]
    exact ⟨rfl, rfl, rfl⟩

/-- C4 (amended): when the prefix sum first exceeds the ceiling at
document k, documents 1..k-1 are accepted, document k is rejected with a
warning identifying the skipped file (the warning does not report the
running total), and the documents after k are evaluated independently -
the run's buffer, total and accepted list equal those of the run without
document k, so a later document that fits on its own is still accepted. -/
theorem c4_reject_and_continue (count : String → Nat)
    (pre post : List UploadedFile) (d : UploadedFile) (t : String)
    (hok : ∀ f ∈ pre, f.extract.isOk = true)
    (hfit : ∀ i, i < pre.length → tokSumF count (pre.take (i + 1)) ≤ MAX_TOKENS)
    (hd : d.extract = Except.ok t)
    (hover : tokSumF count pre + count t > MAX_TOKENS) :
    ((process_pdfs count (pre ++ d :: post)).combined_text =
        (process_pdfs count (pre ++ post)).combined_text ∧
      (process_pdfs count (pre ++ d :: post)).total_tokens =
        (process_pdfs count (pre ++ post)).total_tokens ∧
      (process_pdfs count (pre ++ d :: post)).processed_files =
        (process_pdfs count (pre ++ post)).processed_files) ∧
    StMsg.warning ("Skipping " ++ d.name ++ " - would exceed token limit") ∈
      (process_pdfs count (pre ++ d :: post)).msgs ∧
    ∃ rest, (process_pdfs count (pre ++ d :: post)).processed_files =
      pre.map (fun f => f.name) ++ rest := by
  have hfit' : ∀ i, i < pre.length →
      initState.total_tokens + tokSumF count (pre.take (i + 1)) ≤ MAX_TOKENS := by
    intro i hi
    simpa [initState] using hfit i hi
  obtain ⟨hAp, hAt⟩ := foldl_accept count pre initState hok hfit'
  have hAp' : (List.foldl (processStep count) initState pre).processed_files =
      pre.map (fun f => f.name) := by simpa [initState] using hAp
  have hAt' : (List.foldl (processStep count) initState pre).total_tokens =
      tokSumF count pre := by simpa [initState] using hAt
  have hov : (List.foldl (processStep count) initState pre).total_tokens + count t >
      MAX_TOKENS := by rw [hAt']; exact hover
  have hstep := processStep_skip count (List.foldl (processStep count) initState pre) d t hd hov
  have h1 : process_pdfs count (pre ++ d :: post) =
      List.foldl (processStep count)
        (processStep count (List.foldl (processStep count) initState pre) d) post := by
    simp [process_pdfs, List.foldl_append]
  have h2 : process_pdfs count (pre ++ post) =
      List.foldl (processStep count) (List.foldl (processStep count) initState pre) post := by
    simp [process_pdfs, List.foldl_append]
  refine ⟨?_, ?_, ?_⟩
  · rw [h1, h2]
    exact foldl_msgs_irrel count post _ _ (by rw [hstep]) (by rw [hstep]) (by rw [hstep])
  · rw [h1]
    obtain ⟨m, hm⟩ := foldl_msgs count post
      (processStep count (List.foldl (processStep count) initState pre) d)
    rw [hm, hstep]
    simp
  · rw [h1]
    obtain ⟨kept, _, _, _, hkp⟩ := foldl_core count post
      (processStep count (List.foldl (processStep count) initState pre) d)
    refine ⟨kept.map Prod.fst, ?_⟩
    rw [hkp, hstep]
    simp only []
    rw [hAp']

/-- C4 (counterexample): one accepted 1,000,000-token file followed by a
rejected 2,000,000-token file.  The rejection warning names the skipped
file but contains the running total at the time of rejection (1,000,000)
in no form, so the claim's "warning identifying the skipped file and the
running total at time of rejection" fails on the code as written. -/
theorem c4_counterexample :
    (process_pdfs (fun s => s.length * 1000000)
      [⟨"a.pdf", Except.ok "x"⟩, ⟨"b.pdf", Except.ok "yy"⟩]).total_tokens = 1000000 ∧
    (process_pdfs (fun s => s.length * 1000000)
      [⟨"a.pdf", Except.ok "x"⟩, ⟨"b.pdf", Except.ok "yy"⟩]).processed_files = ["a.pdf"] ∧
    (process_pdfs (fun s => s.length * 1000000)
      [⟨"a.pdf", Except.ok "x"⟩, ⟨"b.pdf", Except.ok "yy"⟩]).msgs =
      [.info "Processing a.pdf...", .success "Processed a.pdf: 1,000,000 tokens",
       .info "Processing b.pdf...", .warning "Skipping b.pdf - would exceed token limit"] ∧
    strContains "Skipping b.pdf - would exceed token limit" "1,000,000" = false ∧
    strContains "Skipping b.pdf - would exceed token limit" "1000000" = false ∧
    strContains "Skipping b.pdf - would exceed token limit" "b.pdf" = true := by
  refine ⟨?_, ?_, ?_, ?_, ?_, ?_⟩ <;> decide

set_option maxRecDepth 100000 in
/-- C1 (code bug): the Prompt Builder is a pure function of its arguments
that states the requested slide count and topic, names the required
per-slide fields and shows the example JSON schema - but it never appends
the combined source text: the prompt is independent of the `source_text`
argument, and a marker source text does not occur anywhere in the prompt
built from it (topic "Photosynthesis", count 5). -/
theorem c1_prompt_ignores_source_text :
    (∀ s₁ s₂ topic n layout, build_prompt s₁ topic n layout = build_prompt s₂ topic n layout) ∧
    strContains (build_prompt "UNIQUESOURCETEXT" "Photosynthesis" 5 "Content")
      "Create a 5-slide presentation about \"Photosynthesis\"" = true ∧
    strContains (build_prompt "UNIQUESOURCETEXT" "Photosynthesis" 5 "Content")
      "- title (string, short)" = true ∧
    strContains (build_prompt "UNIQUESOURCETEXT" "Photosynthesis" 5 "Content")
      "Make sure the output is valid JSON. For example:" = true ∧
    strContains (build_prompt "UNIQUESOURCETEXT" "Photosynthesis" 5 "Content")
      "UNIQUESOURCETEXT" = false := by
  refine ⟨fun s₁ s₂ topic n layout => rfl, ?_, ?_, ?_, ?_⟩ <;> decide

/-- C10: `create_default_template` never overwrites an existing
`template.pptx` (an existing file is left untouched) and the operation is
idempotent on the file state. -/
theorem c10_default_template_no_overwrite :
    (∀ t, create_default_template (some t) = some t) ∧
    (∀ fs, create_default_template (create_default_template fs) = create_default_template fs) := by
  constructor
  · intro t
    rfl
  · intro fs
    cases fs <;> rfl

/-- C9: when the Token Budgeter accepts no files, the Generate
Presentation handler stops with the "No files processed" warning, the LLM
client is never invoked, and no deck is assembled. -/
theorem c9_no_files_no_llm (count : String → Nat) (llm : String → Except String String)
    (template : TemplateModel) (theme : ThemeModel) (topic : String)
    (files : List UploadedFile) (num_slides : Nat) (selected_layout : String)
    (htopic : pyStrip topic ≠ "") (hfiles : files ≠ [])
    (hnone : (process_pdfs count files).processed_files = []) :
    generate_click count llm template theme topic files num_slides selected_layout =
      [.warningMsg "No files processed. Please check your input."] ∧
    (∀ p, GenAction.llmCall p ∉
      generate_click count llm template theme topic files num_slides selected_layout) ∧
    (∀ d, GenAction.deckBuilt d ∉
      generate_click count llm template theme topic files num_slides selected_layout) := by
  have hf : files.isEmpty = false := by
    cases files with
    | nil => exact absurd rfl hfiles
    | cons a l => rfl
  have hmain : generate_click count llm template theme topic files num_slides selected_layout =
      [.warningMsg "No files processed. Please check your input."] := by
    unfold generate_click
    rw [if_neg htopic]
    simp only [hf]
    simp [hnone]
  refine ⟨hmain, ?_, ?_⟩
  · intro p
    rw [hmain]
    simp
  · intro d
    rw [hmain]
    simp

/-- C4 (witness): concrete instance of `c4_reject_and_continue` - with a
1,000,000-token accepted file, a 2,000,000-token rejected file and a
later 1,000,000-token file, the run equals the run without the rejected
file (so the later file is accepted) and the skip warning is emitted. -/
theorem c4_witness :
    (process_pdfs (fun s => s.length * 1000000)
        [⟨"a.pdf", Except.ok "x"⟩, ⟨"b.pdf", Except.ok "yy"⟩, ⟨"c.pdf", Except.ok "x"⟩]).processed_files =
      (process_pdfs (fun s => s.length * 1000000)
        [⟨"a.pdf", Except.ok "x"⟩, ⟨"c.pdf", Except.ok "x"⟩]).processed_files ∧
    StMsg.warning ("Skipping " ++ "b.pdf" ++ " - would exceed token limit") ∈
      (process_pdfs (fun s => s.length * 1000000)
        [⟨"a.pdf", Except.ok "x"⟩, ⟨"b.pdf", Except.ok "yy"⟩, ⟨"c.pdf", Except.ok "x"⟩]).msgs := by
  have h := c4_reject_and_continue (fun s => s.length * 1000000)
    [⟨"a.pdf", Except.ok "x"⟩] [⟨"c.pdf", Except.ok "x"⟩] ⟨"b.pdf", Except.ok "yy"⟩ "yy"
    (by decide)
    (by
      intro i hi
      simp only [List.length_cons, List.length_nil] at hi
      have h0 : i = 0 := by omega
      subst h0
      decide)
    rfl (by decide)
  exact ⟨h.1.2.2, h.2.1⟩

/-- C9 (witness): concrete instance of `c9_no_files_no_llm` - one upload
whose extraction fails, so nothing is processed and the handler stops at
the warning. -/
theorem c9_witness :
    generate_click (fun _ => 0) (fun _ => Except.ok "\x7b\x7d")
      defaultTemplate ⟨"Light", "Arial", "Arial", "None", ""⟩ "Photosynthesis"
      [⟨"a.pdf", Except.error "bad pdf"⟩] 5 "Content" =
      [.warningMsg "No files processed. Please check your input."] :=
  (c9_no_files_no_llm (fun _ => 0) (fun _ => Except.ok "\x7b\x7d")
    defaultTemplate ⟨"Light", "Arial", "Arial", "None", ""⟩ "Photosynthesis"
    [⟨"a.pdf", Except.error "bad pdf"⟩] 5 "Content"
    (by decide) (by decide) (by decide)).1

/-- A successful `Except` traversal returns one output per input. -/
theorem mapM_ok_length {α β : Type} (f : α → Except String β) :
    ∀ (l : List α) (res : List β), l.mapM f = Except.ok res → res.length = l.length := by
  intro l
  induction l with
  | nil =>
    intro res h
    rw [List.mapM_nil] at h
    simp only [pure, Except.pure] at h
    rw [← Except.ok.inj h]
    rfl
  | cons x xs ih =>
    intro res h
    rw [List.mapM_cons] at h
    cases hfx : f x with
    | error e =>
      rw [hfx] at h
      simp only [bind, Except.bind] at h
      exact absurd h (by simp)
    | ok b =>
      rw [hfx] at h
      simp only [bind, Except.bind] at h
      cases hxs : xs.mapM f with
      | error e =>
        rw [hxs] at h
        exact absurd h (by simp)
      | ok bs =>
        rw [hxs] at h
        simp only [pure, Except.pure] at h
        rw [← Except.ok.inj h]
        simp [ih bs hxs]

/-- A successful `Except` traversal of a concatenation splits into
successful traversals of the parts. -/
theorem mapM_append_ok {α β : Type} (f : α → Except String β)
    (l₁ l₂ : List α) (r₁ r₂ : List β)
    (h₁ : l₁.mapM f = Except.ok r₁) (h₂ : l₂.mapM f = Except.ok r₂) :
    (l₁ ++ l₂).mapM f = Except.ok (r₁ ++ r₂) := by
  rw [List.mapM_append, h₁]
  simp only [bind, Except.bind]
  rw [h₂]
  rfl

/-- C2 (amended): `create_enhanced_ppt` performs no slide-count
reconciliation at all: the required-count argument is ignored (two calls
that differ only in it return identical results), and a successful
assembly yields the template's T existing slides followed by one slide
per parsed record - T + S slides, whatever N was requested; no trailing
slides are removed and no slides are added from a base layout. -/
theorem c2_no_reconciliation (slides_data : Json) (template : TemplateModel)
    (theme : ThemeModel) (n₁ n₂ : Nat) (records : List Json) (deck : List SlideModel)
    (hrec : getItem slides_data "slides" = Except.ok (Json.arr records))
    (hok : create_enhanced_ppt slides_data template theme n₁ = Except.ok deck) :
    create_enhanced_ppt slides_data template theme n₁ =
      create_enhanced_ppt slides_data template theme n₂ ∧
    deck.length = template.slides.length + records.length := by
  refine ⟨rfl, ?_⟩
  unfold create_enhanced_ppt at hok
  rw [hrec] at hok
  simp only [bind, Except.bind] at hok
  cases hm : records.mapM (buildSlide template.layouts theme) with
  | error e =>
    rw [hm] at hok
    exact absurd hok (by simp)
  | ok newSlides =>
    rw [hm] at hok
    simp only [pure, Except.pure] at hok
    rw [← Except.ok.inj hok]
    simp [mapM_ok_length _ records newSlides hm]

/-- C2 (counterexample): a template with one existing slide, a required
count of 3 and a parsed response containing a single slide record produce
a deck of 2 slides, not 3 - no trailing-slide removal or slide-adding
reconciliation happens. -/
theorem c2_counterexample :
    create_enhanced_ppt
      (Json.obj [("slides", Json.arr [Json.obj
        [("title", Json.str "T"), ("layout_type", Json.str "Content"),
         ("content", Json.obj [("bullets", Json.arr [Json.str "b1"])]),
         ("transition", Json.str "None")]])])
      ⟨[⟨[["old"]], none⟩], default_pptx_layout_counts⟩
      ⟨"Light", "Arial", "Arial", "None", ""⟩ 3 =
      Except.ok [⟨[["old"]], none⟩, ⟨[["T"], ["", "b1"]], none⟩] ∧
    ([⟨[["old"]], none⟩, ⟨[["T"], ["", "b1"]], none⟩] : List SlideModel).length ≠ 3 :=
  ⟨rfl, by decide⟩

/-- C2 (witness): concrete instance of `c2_no_reconciliation` at the same
single-record response: required counts 3 and 7 give identical results,
and the deck size is template size + record count. -/
theorem c2_witness :
    create_enhanced_ppt
      (Json.obj [("slides", Json.arr [Json.obj
        [("title", Json.str "T"), ("layout_type", Json.str "Content"),
         ("content", Json.obj [("bullets", Json.arr [Json.str "b1"])]),
         ("transition", Json.str "None")]])])
      ⟨[⟨[["old"]], none⟩], default_pptx_layout_counts⟩
      ⟨"Light", "Arial", "Arial", "None", ""⟩ 3 =
    create_enhanced_ppt
      (Json.obj [("slides", Json.arr [Json.obj
        [("title", Json.str "T"), ("layout_type", Json.str "Content"),
         ("content", Json.obj [("bullets", Json.arr [Json.str "b1"])]),
         ("transition", Json.str "None")]])])
      ⟨[⟨[["old"]], none⟩], default_pptx_layout_counts⟩
      ⟨"Light", "Arial", "Arial", "None", ""⟩ 7 ∧
    ([⟨[["old"]], none⟩, ⟨[["T"], ["", "b1"]], none⟩] : List SlideModel).length =
      (TemplateModel.mk [⟨[["old"]], none⟩] default_pptx_layout_counts).slides.length +
      ([Json.obj
        [("title", Json.str "T"), ("layout_type", Json.str "Content"),
         ("content", Json.obj [("bullets", Json.arr [Json.str "b1"])]),
         ("transition", Json.str "None")]] : List Json).length :=
  have h := c2_no_reconciliation
    (Json.obj [("slides", Json.arr [Json.obj
      [("title", Json.str "T"), ("layout_type", Json.str "Content"),
       ("content", Json.obj [("bullets", Json.arr [Json.str "b1"])]),
       ("transition", Json.str "None")]])])
    ⟨[⟨[["old"]], none⟩], default_pptx_layout_counts⟩
    ⟨"Light", "Arial", "Arial", "None", ""⟩ 3 7
    [Json.obj
      [("title", Json.str "T"), ("layout_type", Json.str "Content"),
       ("content", Json.obj [("bullets", Json.arr [Json.str "b1"])]),
       ("transition", Json.str "None")]]
    [⟨[["old"]], none⟩, ⟨[["T"], ["", "b1"]], none⟩] rfl rfl
  ⟨h.1, h.2⟩

/-- A successful traversal of the records determines the assembled deck:
the template's slides followed by the built slides. -/
theorem create_ok_of_mapM (records : List Json) (template : TemplateModel)
    (theme : ThemeModel) (n : Nat) (ns : List SlideModel)
    (h : records.mapM (buildSlide template.layouts theme) = Except.ok ns) :
    create_enhanced_ppt (Json.obj [("slides", Json.arr records)]) template theme n =
      Except.ok (template.slides ++ ns) := by
  unfold create_enhanced_ppt
  have hg : getItem (Json.obj [("slides", Json.arr records)]) "slides" =
      Except.ok (Json.arr records) := rfl
  rw [hg]
  simp only [bind, Except.bind]
  rw [h]
  rfl

/-- C7: a slide record whose layout-specific content fields are absent (an
empty `content` object) assembles without error into a slide whose body
placeholders hold only the empty default text (the title is set; every
placeholder past it holds the single empty paragraph), for every layout
type; and such a record does not abort the rest of the deck: surrounded by
any well-assembling records, assembly succeeds and yields exactly the
surrounding slides plus this one, in order. -/
theorem c7_missing_fields_default_empty (lt t f1 f2 tr : String)
    (hlt : lt ∈ ["Title Slide", "Content", "Two Content", "Section Header", "Comparison"]) :
    buildSlide default_pptx_layout_counts ⟨"Light", f1, f2, tr, ""⟩
      (Json.obj [("title", Json.str t), ("layout_type", Json.str lt),
                 ("content", Json.obj []), ("transition", Json.str "None")]) =
      Except.ok ⟨[t] :: List.replicate
        ((default_pptx_layout_counts.get? ((layoutId? lt).getD 0)).getD 1 - 1) [""], none⟩ ∧
    ∀ (pre post : List Json) (lpre lpost tmplSlides : List SlideModel) (n : Nat),
      pre.mapM (buildSlide default_pptx_layout_counts ⟨"Light", f1, f2, tr, ""⟩) =
        Except.ok lpre →
      post.mapM (buildSlide default_pptx_layout_counts ⟨"Light", f1, f2, tr, ""⟩) =
        Except.ok lpost →
      create_enhanced_ppt
        (Json.obj [("slides", Json.arr (pre ++
          (Json.obj [("title", Json.str t), ("layout_type", Json.str lt),
                     ("content", Json.obj []), ("transition", Json.str "None")]) :: post))])
        ⟨tmplSlides, default_pptx_layout_counts⟩ ⟨"Light", f1, f2, tr, ""⟩ n =
        Except.ok (tmplSlides ++ (lpre ++ (⟨[t] :: List.replicate
          ((default_pptx_layout_counts.get? ((layoutId? lt).getD 0)).getD 1 - 1) [""],
            none⟩ :: lpost))) := by
  have hbuild : buildSlide default_pptx_layout_counts ⟨"Light", f1, f2, tr, ""⟩
      (Json.obj [("title", Json.str t), ("layout_type", Json.str lt),
                 ("content", Json.obj []), ("transition", Json.str "None")]) =
      Except.ok ⟨[t] :: List.replicate
        ((default_pptx_layout_counts.get? ((layoutId? lt).getD 0)).getD 1 - 1) [""], none⟩ := by
    simp only [List.mem_cons, List.not_mem_nil, or_false] at hlt
    rcases hlt with rfl | rfl | rfl | rfl | rfl <;> rfl
  refine ⟨hbuild, ?_⟩
  intro pre post lpre lpost tmplSlides n h₁ h₂
  have hcons := mapM_append_ok (buildSlide default_pptx_layout_counts ⟨"Light", f1, f2, tr, ""⟩)
    pre _ lpre _ h₁ (by
      rw [List.mapM_cons, hbuild]
      simp only [bind, Except.bind]
      rw [h₂]
      rfl)
  exact create_ok_of_mapM _ ⟨tmplSlides, default_pptx_layout_counts⟩ _ n _ hcons

/-- C7 (witness): concrete instance of `c7_missing_fields_default_empty` -
a Content-layout record with an empty content object yields a slide with
title "Hello" and an empty body, and assembling it next to a normal record
succeeds with both slides present. -/
theorem c7_witness :
    buildSlide default_pptx_layout_counts ⟨"Light", "Arial", "Calibri", "None", ""⟩
      (Json.obj [("title", Json.str "Hello"), ("layout_type", Json.str "Content"),
                 ("content", Json.obj []), ("transition", Json.str "None")]) =
      Except.ok ⟨[["Hello"], [""]], none⟩ ∧
    create_enhanced_ppt
      (Json.obj [("slides", Json.arr
        [Json.obj [("title", Json.str "Hello"), ("layout_type", Json.str "Content"),
                   ("content", Json.obj []), ("transition", Json.str "None")],
         Json.obj [("title", Json.str "B"), ("layout_type", Json.str "Content"),
                   ("content", Json.obj [("bullets", Json.arr [Json.str "x"])]),
                   ("transition", Json.str "None")]])])
      ⟨[], default_pptx_layout_counts⟩ ⟨"Light", "Arial", "Calibri", "None", ""⟩ 5 =
      Except.ok [⟨[["Hello"], [""]], none⟩, ⟨[["B"], ["", "x"]], none⟩] := by
  have h := c7_missing_fields_default_empty "Content" "Hello" "Arial" "Calibri" "None"
    (by decide)
  exact ⟨h.1, h.2 []
    [Json.obj [("title", Json.str "B"), ("layout_type", Json.str "Content"),
               ("content", Json.obj [("bullets", Json.arr [Json.str "x"])]),
               ("transition", Json.str "None")]]
    [] [⟨[["B"], ["", "x"]], none⟩] [] 5 rfl rfl⟩

/-- C3 (counterexample): the non-JSON response "hello" makes the Response
Parser fail with "API Error: Expecting value: line 1 column 1 (char 0)" -
a descriptive message, but one that does not contain the offending raw
text itself, contradicting the claim's "message includes the offending
raw text". -/
theorem c3_counterexample :
    parse_llm_response "hello" =
      Except.error "API Error: Expecting value: line 1 column 1 (char 0)" ∧
    strContains "API Error: Expecting value: line 1 column 1 (char 0)" "hello" = false :=
  ⟨rfl, by decide⟩

/-- C3 (amended): for every raw response whose cleaned text is not valid
JSON, the Response Parser fails loudly - the result is the error
"API Error: " followed by the JSON decoder's positional diagnostic, and
that message is never empty; no silent empty result is possible.  (The
offending raw text is not included in the message; it is only carried by
the raised exception object.) -/
theorem c3_error_is_descriptive (raw e : String)
    (h : json_loads (clean_response raw) = Except.error e) :
    parse_llm_response raw = Except.error ("API Error: " ++ e) ∧
    ("API Error: " ++ e) ≠ "" := by
  constructor
  · unfold parse_llm_response
    rw [h]
  · intro hc
    have hd := congrArg String.data hc
    rw [String.data_append] at hd
    rcases List.append_eq_nil.mp hd with ⟨h3, _⟩
    exact absurd h3 (by decide)

/-- C3 (witness): concrete instance of `c3_error_is_descriptive` at the
raw response "hello". -/
theorem c3_witness :
    parse_llm_response "hello" =
      Except.error ("API Error: " ++ "Expecting value: line 1 column 1 (char 0)") ∧
    ("API Error: " ++ "Expecting value: line 1 column 1 (char 0)") ≠ "" :=
  c3_error_is_descriptive "hello" "Expecting value: line 1 column 1 (char 0)" rfl

/-- C6 (counterexample): the well-formed JSON object
`{"slides": ["a```b"]}` (a backtick run inside a string is legal JSON)
parses directly, but wrapped in a code fence the `split("```")` cleaning
truncates it at the interior backticks and parsing fails - the two runs do
not yield the identical parsed structure, refuting the claim for
arbitrary well-formed `{"slides": [...]}` objects. -/
theorem c6_counterexample :
    parse_llm_response "\x7b\"slides\": [\"a```b\"]\x7d" =
      Except.ok (Json.obj [("slides", Json.arr [Json.str "a```b"])]) ∧
    parse_llm_response "```json\n\x7b\"slides\": [\"a```b\"]\x7d\n```" =
      Except.error "API Error: Unterminated string starting at: line 1 column 13 (char 12)" ∧
    (Except.ok (Json.obj [("slides", Json.arr [Json.str "a```b"])]) ≠
      (Except.error "API Error: Unterminated string starting at: line 1 column 13 (char 12)" :
        Except String Json)) :=
  ⟨rfl, rfl, fun hc => Except.noConfusion hc⟩

/-! ## Lemmas about the code-fence stripper -/

/-- A list is a Boolean prefix of itself followed by anything. -/
theorem isPrefixOf_self_append (l t : List Char) : l.isPrefixOf (l ++ t) = true := by
  rw [List.isPrefixOf_iff_prefix]
  exact List.prefix_append l t

/-- `dropWhile` eats an all-true block and stops at a false head. -/
theorem dropWhile_eat (p : Char → Bool) :
    ∀ (pre rest : List Char), (∀ c ∈ pre, p c = true) →
      (∀ h, rest.head? = some h → p h = false) →
      List.dropWhile p (pre ++ rest) = rest := by
  intro pre
  induction pre with
  | nil =>
    intro rest _ hr
    cases rest with
    | nil => rfl
    | cons h t => simp [List.dropWhile_cons, hr h rfl]
  | cons c cs ih =>
    intro rest hp hr
    have hc : p c = true := hp c (by simp)
    simp only [List.cons_append, List.dropWhile_cons, hc, if_true]
    exact ih rest (fun d hd => hp d (by simp [hd])) hr

/-- Stripping a whitespace sandwich leaves the filling, when the filling
starts and ends with non-whitespace. -/
theorem pyStripL_sandwich (pre xs post : List Char) (h hl : Char)
    (hpre : ∀ c ∈ pre, isPyWs c = true) (hpost : ∀ c ∈ post, isPyWs c = true)
    (hh : xs.head? = some h) (hhw : isPyWs h = false)
    (hlast : xs.getLast? = some hl) (hlw : isPyWs hl = false) :
    pyStripL (pre ++ xs ++ post) = xs := by
  unfold pyStripL
  have h1 : List.dropWhile isPyWs (pre ++ xs ++ post) = xs ++ post := by
    rw [List.append_assoc]
    apply dropWhile_eat _ pre (xs ++ post) hpre
    intro d hd
    cases xs with
    | nil => simp at hh
    | cons x xt =>
      simp only [List.head?_cons, Option.some.injEq] at hh
      simp only [List.cons_append, List.head?_cons, Option.some.injEq] at hd
      rw [← hd, hh]
      exact hhw
  rw [h1]
  have h2 : List.dropWhile isPyWs (xs ++ post).reverse = xs.reverse := by
    rw [List.reverse_append]
    apply dropWhile_eat _ post.reverse xs.reverse
      (fun c hc => hpost c (List.mem_reverse.mp hc))
    intro d hd
    rw [List.head?_reverse, hlast] at hd
    rw [← Option.some.inj hd]
    exact hlw
  rw [h2, List.reverse_reverse]

/-- Stripping a list with non-whitespace ends is the identity. -/
theorem pyStripL_id (xs : List Char) (h hl : Char) (hh : xs.head? = some h)
    (hhw : isPyWs h = false) (hlast : xs.getLast? = some hl) (hlw : isPyWs hl = false) :
    pyStripL xs = xs := by
  have hs := pyStripL_sandwich [] xs [] h hl (by simp) (by simp) hh hhw hlast hlw
  simpa using hs

/-- Whether three backticks start at the head of `xs ++ "```" ++ rest` is
decided within `xs ++ "``"` when `xs` is non-empty. -/
theorem trip_prefix_stable (x : Char) (xs rest : List Char) :
    (['`', '`', '`'] : List Char).isPrefixOf ((x :: xs) ++ (['`', '`', '`'] ++ rest)) =
      (['`', '`', '`'] : List Char).isPrefixOf ((x :: xs) ++ ['`', '`']) := by
  cases xs with
  | nil => simp [List.isPrefixOf]
  | cons y ys =>
    cases ys with
    | nil => simp [List.isPrefixOf]
    | cons z zs => simp [List.isPrefixOf]

/-- Appending a block headed by a non-backtick to a triple-free list keeps
it triple-free, provided the block itself is triple-free. -/
theorem hasTriple_append_nonbt (ys : List Char) (b : Char) (hb : ('`' == b) = false) :
    ∀ xs, hasTriple xs = false → hasTriple (b :: ys) = false →
      hasTriple (xs ++ b :: ys) = false := by
  intro xs
  induction xs with
  | nil => intro _ h2; simpa using h2
  | cons x xt ih =>
    intro h1 h2
    simp only [hasTriple] at h1
    rcases Bool.or_eq_false_iff.mp h1 with ⟨hp1, hrest⟩
    have goal2 := ih hrest h2
    simp only [List.cons_append, hasTriple]
    rw [Bool.or_eq_false_iff]
    refine ⟨?_, goal2⟩
    cases xt with
    | nil => simp [List.isPrefixOf, hb]
    | cons y yt =>
      cases yt with
      | nil => simp [List.isPrefixOf, hb]
      | cons z zt =>
        simp only [List.isPrefixOf, Bool.and_eq_false_iff] at hp1 ⊢
        simpa using hp1

/-- Scanning lemma for `splitAux` with the `"```"` separator: a
triple-free block that does not end in backticks is consumed as one
segment, up to the next separator occurrence. -/
theorem splitAux_trip (rest : List Char) :
    ∀ (mid : List Char) (fuel : Nat) (cur : List Char) (acc : List (List Char)),
      hasTriple (mid ++ ['`', '`']) = false →
      mid.length + 1 ≤ fuel →
      splitAux ['`', '`', '`'] fuel (mid ++ (['`', '`', '`'] ++ rest)) cur acc =
        splitAux ['`', '`', '`'] (fuel - (mid.length + 1)) rest [] (acc ++ [cur ++ mid]) := by
  intro mid
  induction mid with
  | nil =>
    intro fuel cur acc _ hfuel
    cases fuel with
    | zero => omega
    | succ k =>
      show splitAux _ (k + 1) ('`' :: '`' :: '`' :: rest) cur acc = _
      rw [splitAux]
      simp [List.isPrefixOf]
  | cons m ms ih =>
    intro fuel cur acc htrip hfuel
    cases fuel with
    | zero => simp at hfuel
    | succ k =>
      have htrip' := htrip
      simp only [List.cons_append, hasTriple] at htrip'
      rcases Bool.or_eq_false_iff.mp htrip' with ⟨hp1, hrest⟩
      have hpf : (['`', '`', '`'] : List Char).isPrefixOf
          (m :: (ms ++ (['`', '`', '`'] ++ rest))) = false := by
        show (['`', '`', '`'] : List Char).isPrefixOf
          ((m :: ms) ++ (['`', '`', '`'] ++ rest)) = false
        rw [trip_prefix_stable]
        simpa using hp1
      show splitAux _ (k + 1) (m :: (ms ++ (['`', '`', '`'] ++ rest))) cur acc = _
      rw [splitAux]
      rw [hpf]
      simp only [Bool.false_eq_true, if_false]
      have hk : ms.length + 1 ≤ k := by
        simp only [List.length_cons] at hfuel
        omega
      rw [ih k (cur ++ [m]) acc hrest hk]
      have harith : k - (ms.length + 1) = k + 1 - ((m :: ms).length + 1) := by
        simp only [List.length_cons]
        omega
      rw [harith, ← List.append_cons]

/-- The fence split of `"```" ++ mid ++ "```"` is `["", mid, ""]` when
`mid` is triple-free and does not end in backticks. -/
theorem pySplit_fence (mid : List Char)
    (hmid : hasTriple (mid ++ ['`', '`']) = false) :
    pySplitL ['`', '`', '`'] (['`', '`', '`'] ++ mid ++ ['`', '`', '`']) = [[], mid, []] := by
  unfold pySplitL
  have h0 : (['`', '`', '`'] ++ mid ++ ['`', '`', '`'] : List Char) =
      [] ++ (['`', '`', '`'] ++ (mid ++ (['`', '`', '`'] ++ []))) := by
    simp
  rw [h0]
  rw [splitAux_trip (mid ++ (['`', '`', '`'] ++ [])) [] _ [] [] (by decide) (by simp)]
  rw [splitAux_trip [] mid _ [] _ hmid (by simp)]
  simp [splitAux]

/-- Fence-cleaning is lossless on triple-backtick-free JSON-object text:
the fenced forms (with or without a "json" tag line) and the bare text all
clean to the same character list, the original text. -/
theorem clean_wrap (c : String) (tagJson : Bool)
    (hhead : c.data.head? = some '\x7b')
    (hlast : c.data.getLast? = some '\x7d')
    (htriple : hasTriple c.data = false) :
    clean_response ((if tagJson then "```json\n" else "```\n") ++ c ++ "\n```") = c.data ∧
    clean_response c = c.data := by
  obtain ⟨xt, hD⟩ : ∃ xt, c.data = '\x7b' :: xt := by
    cases hcd : c.data with
    | nil => rw [hcd] at hhead; simp at hhead
    | cons a l =>
      rw [hcd] at hhead
      simp only [List.head?_cons, Option.some.injEq] at hhead
      exact ⟨l, by rw [hhead]⟩
  have hwsopen : isPyWs '\x7b' = false := by decide
  have hwsclose : isPyWs '\x7d' = false := by decide
  have hstrip_c : pyStripL c.data = c.data :=
    pyStripL_id c.data '\x7b' '\x7d' hhead hwsopen hlast hwsclose
  have hnostart : pyStartsWithL c.data "```".data = false := by
    rw [hD]
    simp only [pyStartsWithL, List.isPrefixOf]
    rw [show ('`' == '\x7b') = false from by decide]
    simp
  have hclean_c : clean_response c = c.data := by
    unfold clean_response
    rw [hstrip_c]
    simp only [hnostart, Bool.false_and, Bool.false_eq_true, if_false]
  have hstrip2 : pyStripL (c.data ++ ['\n']) = c.data := by
    have hs := pyStripL_sandwich [] c.data ['\n'] '\x7b' '\x7d' (by simp)
      (by intro cc hcc; simp only [List.mem_singleton] at hcc; rw [hcc]; rfl)
      hhead hwsopen hlast hwsclose
    simpa using hs
  have hstepA : hasTriple (c.data ++ '\n' :: ['`', '`']) = false :=
    hasTriple_append_nonbt ['`', '`'] '\n' (by decide) c.data htriple (by decide)
  have hstepA' : hasTriple ('\x7b' :: (xt ++ '\n' :: ['`', '`'])) = false := by
    rw [hD] at hstepA
    simpa using hstepA
  refine ⟨?_, hclean_c⟩
  cases tagJson with
  | true =>
    simp only [if_true]
    have hwdata : (("```json\n" ++ c) ++ "\n```").data =
        (['`', '`', '`'] ++ ("json\n".data ++ (c.data ++ ['\n']))) ++ ['`', '`', '`'] := by
      rw [String.data_append, String.data_append]
      rw [show ("```json\n" : String).data = ['`', '`', '`'] ++ "json\n".data from rfl]
      rw [show ("\n```" : String).data = ['\n'] ++ ['`', '`', '`'] from rfl]
      simp [List.append_assoc]
    have hmid : hasTriple (("json\n".data ++ (c.data ++ ['\n'])) ++ ['`', '`']) = false := by
      have hsh : ("json\n".data ++ (c.data ++ ['\n'])) ++ ['`', '`'] =
          "json\n".data ++ ('\x7b' :: (xt ++ '\n' :: ['`', '`'])) := by
        rw [hD]
        simp [List.append_assoc]
      rw [hsh]
      exact hasTriple_append_nonbt _ '\x7b' (by decide) _ (by decide) hstepA'
    have hsplit := pySplit_fence ("json\n".data ++ (c.data ++ ['\n'])) hmid
    have hstripw : pyStripL
        ((['`', '`', '`'] ++ ("json\n".data ++ (c.data ++ ['\n']))) ++ ['`', '`', '`']) =
        (['`', '`', '`'] ++ ("json\n".data ++ (c.data ++ ['\n']))) ++ ['`', '`', '`'] := by
      apply pyStripL_id _ '`' '`'
      · rfl
      · decide
      · rw [List.getLast?_append]
        rfl
      · decide
    have hst : pyStartsWithL
        ((['`', '`', '`'] ++ ("json\n".data ++ (c.data ++ ['\n']))) ++ ['`', '`', '`'])
        "```".data = true := by
      show (['`', '`', '`'] : List Char).isPrefixOf _ = true
      rw [List.append_assoc]
      exact isPrefixOf_self_append _ _
    have hend : pyEndsWithL
        ((['`', '`', '`'] ++ ("json\n".data ++ (c.data ++ ['\n']))) ++ ['`', '`', '`'])
        "```".data = true := by
      show (['`', '`', '`'] : List Char).isSuffixOf _ = true
      simp only [List.isSuffixOf, List.reverse_append]
      rw [show (['`', '`', '`'] : List Char).reverse = ['`', '`', '`'] from rfl]
      rw [List.append_assoc]
      exact isPrefixOf_self_append _ _
    have hseg : pyStartsWithL ("json\n".data ++ (c.data ++ ['\n']))
        ['j', 's', 'o', 'n', '\n'] = true := by
      show ("json\n".data).isPrefixOf ("json\n".data ++ (c.data ++ ['\n'])) = true
      exact isPrefixOf_self_append _ _
    have hdrop : ("json\n".data ++ (c.data ++ ['\n'])).drop 5 = c.data ++ ['\n'] := by
      rw [show (5 : Nat) = ("json\n".data).length from rfl]
      exact List.drop_left _ _
    have hsplit' : pySplitL "```".data
        ((['`', '`', '`'] ++ ("json\n".data ++ (c.data ++ ['\n']))) ++ ['`', '`', '`']) =
        [[], "json\n".data ++ (c.data ++ ['\n']), []] := hsplit
    unfold clean_response
    rw [hwdata]
    simp only [hstripw, hst, hend, Bool.true_and, if_true, hsplit']
    rw [show ([[], ("json\n".data ++ (c.data ++ ['\n'])), []] : List (List Char)).getD 1 []
        = ("json\n".data ++ (c.data ++ ['\n'])) from rfl]
    rw [hseg, if_pos (rfl : true = true)]
    rw [hdrop, hstrip2]
  | false =>
    simp only [Bool.false_eq_true, if_false]
    have hwdata : (("```\n" ++ c) ++ "\n```").data =
        (['`', '`', '`'] ++ (['\n'] ++ (c.data ++ ['\n']))) ++ ['`', '`', '`'] := by
      rw [String.data_append, String.data_append]
      rw [show ("```\n" : String).data = ['`', '`', '`'] ++ ['\n'] from rfl]
      rw [show ("\n```" : String).data = ['\n'] ++ ['`', '`', '`'] from rfl]
      simp [List.append_assoc]
    have hmid : hasTriple ((['\n'] ++ (c.data ++ ['\n'])) ++ ['`', '`']) = false := by
      have hsh : (['\n'] ++ (c.data ++ ['\n'])) ++ ['`', '`'] =
          ['\n'] ++ ('\x7b' :: (xt ++ '\n' :: ['`', '`'])) := by
        rw [hD]
        simp [List.append_assoc]
      rw [hsh]
      exact hasTriple_append_nonbt _ '\x7b' (by decide) _ (by decide) hstepA'
    have hsplit := pySplit_fence (['\n'] ++ (c.data ++ ['\n'])) hmid
    have hstripw : pyStripL
        ((['`', '`', '`'] ++ (['\n'] ++ (c.data ++ ['\n']))) ++ ['`', '`', '`']) =
        (['`', '`', '`'] ++ (['\n'] ++ (c.data ++ ['\n']))) ++ ['`', '`', '`'] := by
      apply pyStripL_id _ '`' '`'
      · rfl
      · decide
      · rw [List.getLast?_append]
        rfl
      · decide
    have hst : pyStartsWithL
        ((['`', '`', '`'] ++ (['\n'] ++ (c.data ++ ['\n']))) ++ ['`', '`', '`'])
        "```".data = true := by
      show (['`', '`', '`'] : List Char).isPrefixOf _ = true
      rw [List.append_assoc]
      exact isPrefixOf_self_append _ _
    have hend : pyEndsWithL
        ((['`', '`', '`'] ++ (['\n'] ++ (c.data ++ ['\n']))) ++ ['`', '`', '`'])
        "```".data = true := by
      show (['`', '`', '`'] : List Char).isSuffixOf _ = true
      simp only [List.isSuffixOf, List.reverse_append]
      rw [show (['`', '`', '`'] : List Char).reverse = ['`', '`', '`'] from rfl]
      rw [List.append_assoc]
      exact isPrefixOf_self_append _ _
    have hseg : pyStartsWithL (['\n'] ++ (c.data ++ ['\n']))
        ['j', 's', 'o', 'n', '\n'] = false := by
      show (['j', 's', 'o', 'n', '\n'] : List Char).isPrefixOf ('\n' :: (c.data ++ ['\n'])) = false
      simp only [List.isPrefixOf]
      rw [show ('j' == '\n') = false from by decide]
      simp
    have hstrip3 : pyStripL (['\n'] ++ (c.data ++ ['\n'])) = c.data := by
      have hs := pyStripL_sandwich ['\n'] c.data ['\n'] '\x7b' '\x7d'
        (by intro cc hcc; simp only [List.mem_singleton] at hcc; rw [hcc]; rfl)
        (by intro cc hcc; simp only [List.mem_singleton] at hcc; rw [hcc]; rfl)
        hhead hwsopen hlast hwsclose
      simpa [List.append_assoc] using hs
    have hsplit' : pySplitL "```".data
        ((['`', '`', '`'] ++ (['\n'] ++ (c.data ++ ['\n']))) ++ ['`', '`', '`']) =
        [[], ['\n'] ++ (c.data ++ ['\n']), []] := hsplit
    unfold clean_response
    rw [hwdata]
    simp only [hstripw, hst, hend, Bool.true_and, if_true, hsplit']
    rw [show ([[], (['\n'] ++ (c.data ++ ['\n'])), []] : List (List Char)).getD 1 []
        = (['\n'] ++ (c.data ++ ['\n'])) from rfl]
    rw [hseg, if_neg (by simp : ¬ false = true)]
    rw [hstrip3]

/-- C6 (amended): for every well-formed JSON text of an object (starting
with a brace and ending with one) that contains no triple-backtick run,
wrapping it in a code fence - with or without a leading "json"
language-tag line - and feeding it through the Response Parser yields the
identical parsed structure as feeding the unwrapped text directly.  (The
triple-backtick restriction is forced: `c6_counterexample` shows a legal
JSON object with backticks inside a string for which the two runs
differ.) -/
theorem c6_fence_roundtrip (c : String) (j : Json) (tagJson : Bool)
    (hhead : c.data.head? = some '\x7b')
    (hlast : c.data.getLast? = some '\x7d')
    (htriple : hasTriple c.data = false)
    (hok : json_loads c.data = Except.ok j) :
    parse_llm_response ((if tagJson then "```json\n" else "```\n") ++ c ++ "\n```") =
      Except.ok j ∧
    parse_llm_response c = Except.ok j := by
  obtain ⟨hw, hc⟩ := clean_wrap c tagJson hhead hlast htriple
  constructor
  · unfold parse_llm_response
    rw [hw, hok]
  · unfold parse_llm_response
    rw [hc, hok]

/-- C6 (witness): concrete instance of `c6_fence_roundtrip` at the object
`{"slides": []}` with the "json"-tagged fence. -/
theorem c6_witness :
    parse_llm_response ((if true then "```json\n" else "```\n") ++ "\x7b\"slides\": []\x7d" ++ "\n```") =
      Except.ok (Json.obj [("slides", Json.arr [])]) ∧
    parse_llm_response "\x7b\"slides\": []\x7d" = Except.ok (Json.obj [("slides", Json.arr [])]) :=
  c6_fence_roundtrip "\x7b\"slides\": []\x7d" (Json.obj [("slides", Json.arr [])]) true
    (by decide) (by decide) (by decide) rfl

/-! ## Concrete evaluations of the embedded primitives -/

example : fmtComma 1234567 = "1,234,567" := by decide

example : pySplitL "```".data "```json x``` tail```".data =
    ["".data, "json x".data, " tail".data, "".data] := by decide

example : json_loads "\x7b\"a\": [1, true, null], \"b\": \"x\"\x7d".data =
    .ok (.obj [("a", .arr [.intNum 1, .bool true, .null]), ("b", .str "x")]) := rfl

example : json_loads "hello".data =
    .error "Expecting value: line 1 column 1 (char 0)" := rfl

example : json_loads "".data =
    .error "Expecting value: line 1 column 1 (char 0)" := rfl

example : json_loads "\x7b\"a\": 1,\x7d".data =
    .error "Expecting property name enclosed in double quotes: line 1 column 9 (char 8)" := rfl

example : clean_response "```json\n\x7b\"a\": 1\x7d\n```" = "\x7b\"a\": 1\x7d".data := by decide

example : clean_response "```\n\x7b\"a\": 1\x7d\n```" = "\x7b\"a\": 1\x7d".data := by decide

example : clean_response "  \x7b\"a\": 1\x7d " = "\x7b\"a\": 1\x7d".data := by decide

example : parse_llm_response "```json\n\x7b\"slides\": []\x7d\n```" =
    .ok (.obj [("slides", .arr [])]) := rfl
